import Mathlib

/-!
Verification of the ST7920 128x64 display driver
(`src/main/driver_st7920.cpp`).

The driver is shallowly embedded: every function that talks to the SPI
transport is modelled as a pure function returning the list of values it
sends.  `sendInstruction_ST7920` returns the three bytes of one physical
transaction; the stateful operations take the driver's global state
(`instructionSet_ST7920` and the three display flags, gathered into
`DriverState`) and return the updated state together with the list of
10-bit instructions passed to `sendInstruction_ST7920`, in order.
Machine arithmetic: all instruction values handled by the driver fit in
10 bits, every computed byte fits in 8 bits, and the only wrapping
quantity (the `byte position` counter of `printHalfCharacters_ST7920`)
is reduced `% 256` exactly where the C `byte` type wraps.  Timing
(`delay`, `delayMicroseconds`) and SPI configuration are outside the
model.
-/

namespace ST7920

/-- The 3-byte transaction framing of `sendInstruction_ST7920`:
byte 1 = `(instruction >> 8 & 0b10) | (instruction >> 6 & 0b100) | 0b11111000`,
byte 2 = `instruction & 0b0011110000`,
byte 3 = `instruction << 4 & 0b0011110000`.
Every byte is below 256 for any argument, so no truncation is needed. -/
def sendInstruction_ST7920 (instruction : Nat) : List Nat :=
  [ (instruction >>> 8 &&& 0b0000000010) |||
      (instruction >>> 6 &&& 0b0000000100) ||| 0b11111000,
    instruction &&& 0b0011110000,
    (instruction <<< 4) &&& 0b0011110000 ]

/-- `chooseInstructionSet_ST7920`: given the requested set and the tracked
global `instructionSet_ST7920`, returns the new tracked value and the
instructions emitted (the switch instruction, or nothing on a no-op). -/
def chooseInstructionSet_ST7920 (choice : Char) (instructionSet : Char) :
    Char × List Nat :=
  if choice = 'E' ∧ instructionSet = 'B' then ('E', [0b0000110100])
  else if choice = 'B' ∧ instructionSet = 'E' then ('B', [0b0000110000])
  else (instructionSet, [])

/-- `setCursor_ST7920`: the instruction emitted for a `byte` position
(the guard `position >= 0` of the C source is dropped as always true).
Out-of-range positions emit nothing. -/
def setCursor_ST7920 (position : Nat) : List Nat :=
  if position ≤ 7 ∨ (24 ≤ position ∧ position ≤ 31) then
    [0b0010000000 ||| position]
  else if 8 ≤ position ∧ position ≤ 15 then
    [0b0010000000 ||| (position + 8)]
  else if 16 ≤ position ∧ position ≤ 23 then
    [0b0010000000 ||| (position - 8)]
  else []

/-- The logical-to-physical DDRAM address map of `setCursor_ST7920`,
read off its branches (the emitted instruction is
`0b0010000000 ||| physicalAddress p` for `p < 32`). -/
def physicalAddress (position : Nat) : Nat :=
  if position ≤ 7 ∨ (24 ≤ position ∧ position ≤ 31) then position
  else if 8 ≤ position ∧ position ≤ 15 then position + 8
  else if 16 ≤ position ∧ position ≤ 23 then position - 8
  else position

/-- The driver's global mutable state: `instructionSet_ST7920`,
`displayStatus_ST7920`, `underlineCursorStatus_ST7920`,
`blinkCursorStatus_ST7920`. -/
structure DriverState where
  instructionSet : Char
  displayStatus : Bool
  underlineCursorStatus : Bool
  blinkCursorStatus : Bool
deriving DecidableEq, Repr

/-- The initial values of the globals: basic set, all flags true. -/
def initialState : DriverState := ⟨'B', true, true, true⟩

/-- `setEntryMode_ST7920 mode direction`. -/
def setEntryMode_ST7920 (mode direction : Char) (st : DriverState) :
    DriverState × List Nat :=
  let r := chooseInstructionSet_ST7920 'B' st.instructionSet
  let out :=
    if mode = 'C' ∧ direction = 'R' then [0b0000000110]
    else if mode = 'C' ∧ direction = 'L' then [0b0000000100]
    else if mode = 'D' ∧ direction = 'R' then [0b0000000101]
    else if mode = 'D' ∧ direction = 'L' then [0b0000000111]
    else []
  ({ st with instructionSet := r.1 }, r.2 ++ out)

/-- `initialize_ST7920` (SPI setup and delays are outside the model):
sets the tracked set to basic, then sends the function-set instruction,
the display-control instruction built from the current flags, the
clear-display instruction and the entry-mode instruction. -/
def initializeDriver_ST7920 (st : DriverState) : DriverState × List Nat :=
  let st1 := { st with instructionSet := 'B' }
  let displayControl := 0b0000001000 |||
    (if st1.displayStatus then 0b0000000100 else 0) |||
    (if st1.underlineCursorStatus then 0b0000000010 else 0) |||
    (if st1.blinkCursorStatus then 0b0000000001 else 0)
  (st1, [0b0000110000, displayControl, 0b0000000001, 0b0000000110])

/-- `clearCharacterDisplay_ST7920`. -/
def clearCharacterDisplay_ST7920 (st : DriverState) :
    DriverState × List Nat :=
  let r := chooseInstructionSet_ST7920 'B' st.instructionSet
  ({ st with instructionSet := r.1 }, r.2 ++ [0b0000000001])

/-- `setDisplayStatus_ST7920 option status`: updates the flag selected by
the `switch` (no flag for an unrecognized option), rebuilds the
display-control instruction from the (possibly updated) flags, forces the
basic set and sends the instruction. -/
def setDisplayStatus_ST7920 (option : Char) (status : Bool)
    (st : DriverState) : DriverState × List Nat :=
  let st1 :=
    if option = 'D' then { st with displayStatus := status }
    else if option = 'C' then { st with underlineCursorStatus := status }
    else if option = 'B' then { st with blinkCursorStatus := status }
    else st
  let instruction := 0b0000001000 |||
    (if st1.displayStatus then 0b0000000100 else 0) |||
    (if st1.underlineCursorStatus then 0b0000000010 else 0) |||
    (if st1.blinkCursorStatus then 0b0000000001 else 0)
  let r := chooseInstructionSet_ST7920 'B' st1.instructionSet
  ({ st1 with instructionSet := r.1 }, r.2 ++ [instruction])

/-- A call made by `printHalfCharacters_ST7920` /
`printFullCharacters_ST7920`: either a call to `setCursor_ST7920` with
the given argument, or a direct `sendInstruction_ST7920` of the given
instruction. -/
inductive Ev where
  | cursor (position : Nat) : Ev
  | instr (instruction : Nat) : Ev
deriving DecidableEq, Repr

/-- Whether an event is a `setCursor_ST7920` call. -/
def isCursorEv : Ev → Bool
  | .cursor _ => true
  | .instr _ => false

/-- The `for` loop of `printHalfCharacters_ST7920`: before emitting each
character the running `byte position` is checked against 16/32/48 and
`setCursor_ST7920 (position / 2)` is re-issued on a hit; `position` then
wraps as a C `byte`. -/
def printHalfLoop : Nat → List Nat → List Ev
  | _, [] => []
  | position, c :: cs =>
    (if position = 16 ∨ position = 32 ∨ position = 48 then
        [Ev.cursor (position / 2)]
      else [])
      ++ Ev.instr (0b1000000000 ||| c) :: printHalfLoop ((position + 1) % 256) cs

/-- `printHalfCharacters_ST7920 chars row column` with
`length = chars.length` (character codes are the byte values 0–255):
initial cursor placement, optional leading space padding, the write
loop, optional trailing space padding. -/
def printHalfCharacters_ST7920 (chars : List Nat) (row column : Nat) :
    List Ev :=
  let position := (row * 16 + column) % 256
  Ev.cursor (position / 2)
    :: (if position % 2 = 1 then [Ev.instr 0b1000100000] else [])
      ++ printHalfLoop position chars
      ++ (if (position + chars.length) % 256 % 2 = 1 then
            [Ev.instr 0b1000100000]
          else [])

/-- How often the running position of `printHalfLoop`, started at `pos`
and stepped `n` times with `byte` wrap-around, hits a row boundary
(16, 32 or 48). -/
def boundaryHits : Nat → Nat → Nat
  | _, 0 => 0
  | pos, n + 1 =>
    (if pos = 16 ∨ pos = 32 ∨ pos = 48 then 1 else 0) +
      boundaryHits ((pos + 1) % 256) n

/-- C1: the claim places the RW bit of byte 1 (position 2) from logical
bit 9 and the RS bit (position 1) from logical bit 8.  The code does the
opposite: at instruction `0b1000000000` (bit 9 set, bit 8 clear) byte 1
is `0b11111010`, whose bit 2 is clear while bit 9 of the instruction is
set. -/
theorem C1_counterexample :
    Nat.testBit ((sendInstruction_ST7920 0b1000000000).getD 0 0) 2 ≠
      Nat.testBit 0b1000000000 9 := by decide

set_option maxRecDepth 8192 in
/-- C1 (amended): for every 10-bit instruction (bit 9 = RS, bit 8 = RW)
the first byte of `sendInstruction_ST7920` has high five bits `11111`,
low bit 0, the RW bit at position 2 sourced from logical bit 8, and the
RS bit at position 1 sourced from logical bit 9. -/
theorem C1_amended (instruction : Nat) (h : instruction < 1024) :
    ((sendInstruction_ST7920 instruction).getD 0 0) >>> 3 = 0b11111 ∧
    ((sendInstruction_ST7920 instruction).getD 0 0) % 2 = 0 ∧
    Nat.testBit ((sendInstruction_ST7920 instruction).getD 0 0) 2 =
      Nat.testBit instruction 8 ∧
    Nat.testBit ((sendInstruction_ST7920 instruction).getD 0 0) 1 =
      Nat.testBit instruction 9 := by
  revert h
  revert instruction
  decide

/-- Witness for `C1_amended` at the write-data instruction
`0b1000000000 ||| 0x41`. -/
theorem C1_amended_witness :
    (0b1001000001 : Nat) < 1024 ∧
    (((sendInstruction_ST7920 0b1001000001).getD 0 0) >>> 3 = 0b11111 ∧
     ((sendInstruction_ST7920 0b1001000001).getD 0 0) % 2 = 0 ∧
     Nat.testBit ((sendInstruction_ST7920 0b1001000001).getD 0 0) 2 =
       Nat.testBit 0b1001000001 8 ∧
     Nat.testBit ((sendInstruction_ST7920 0b1001000001).getD 0 0) 1 =
       Nat.testBit 0b1001000001 9) :=
  ⟨by decide, C1_amended 0b1001000001 (by decide)⟩

/-- C2: the claimed serialization `[0b11111000, 0b00000000, 0b00000000]`
of the basic function-set instruction is wrong: the second byte carries
DB7–DB4 (`0b0011`) in its high nibble. -/
theorem C2_counterexample :
    sendInstruction_ST7920 0b0000110000 ≠
      [0b11111000, 0b00000000, 0b00000000] := by decide

/-- C2 (amended): `sendInstruction_ST7920 0b0000110000` transfers exactly
the three bytes `0b11111000`, `0b00110000`, `0b00000000`, in that
order. -/
theorem C2_amended :
    sendInstruction_ST7920 0b0000110000 =
      [0b11111000, 0b00110000, 0b00000000] := by decide

/-- C3: for every logical position `p < 32`, `setCursor_ST7920` emits
exactly the set-DDRAM-address opcode `0b0010000000` OR-ed with
`physicalAddress p`, and `physicalAddress` is the identity on
[0,7] ∪ [24,31], `p + 8` on [8,15], and `p - 8` on [16,23]. -/
theorem C3_setCursor_mapping :
    ∀ p : Nat, p < 32 →
      setCursor_ST7920 p = [0b0010000000 ||| physicalAddress p] ∧
      ((p ≤ 7 ∨ (24 ≤ p ∧ p ≤ 31)) → physicalAddress p = p) ∧
      ((8 ≤ p ∧ p ≤ 15) → physicalAddress p = p + 8) ∧
      ((16 ≤ p ∧ p ≤ 23) → physicalAddress p = p - 8) := by decide

/-- Witness for `C3_setCursor_mapping` at `p = 10`. -/
theorem C3_setCursor_mapping_witness :
    (10 : Nat) < 32 ∧
    (setCursor_ST7920 10 = [0b0010000000 ||| physicalAddress 10] ∧
     ((10 ≤ 7 ∨ (24 ≤ 10 ∧ 10 ≤ 31)) → physicalAddress 10 = 10) ∧
     ((8 ≤ 10 ∧ 10 ≤ 15) → physicalAddress 10 = 10 + 8) ∧
     ((16 ≤ 10 ∧ 10 ≤ 23) → physicalAddress 10 = 10 - 8)) :=
  ⟨by decide, C3_setCursor_mapping 10 (by decide)⟩

/-- C4: the logical-to-physical map applied by `setCursor_ST7920` is
injective on [0,31], its image stays within [0,31], and it is indeed the
map the emitted instruction carries. -/
theorem C4_injective :
    ((List.range 32).map physicalAddress).Nodup ∧
    (∀ p : Nat, p < 32 → physicalAddress p < 32) ∧
    (∀ p : Nat, p < 32 → ∀ q : Nat, q < 32 →
      physicalAddress p = physicalAddress q → p = q) ∧
    (∀ p : Nat, p < 32 →
      setCursor_ST7920 p = [0b0010000000 ||| physicalAddress p]) := by decide

/-- Witness for `C4_injective` at `p = q = 5`. -/
theorem C4_injective_witness :
    physicalAddress 5 < 32 ∧ (5 : Nat) = 5 :=
  ⟨C4_injective.2.1 5 (by decide), C4_injective.2.2.1 5 (by decide) 5 (by decide) rfl⟩

/-- C9: for every `byte` position ≥ 32, `setCursor_ST7920` emits no
instruction, hence transfers no bytes; it touches no driver state (it is
modelled stateless because the source function reads and writes no
global). -/
theorem C9_out_of_range (p : Nat) (h1 : 32 ≤ p) (h2 : p < 256) :
    setCursor_ST7920 p = [] ∧
    (setCursor_ST7920 p).flatMap sendInstruction_ST7920 = [] := by
  have h3 : ¬(p ≤ 7 ∨ (24 ≤ p ∧ p ≤ 31)) := by omega
  have h4 : ¬(8 ≤ p ∧ p ≤ 15) := by omega
  have h5 : ¬(16 ≤ p ∧ p ≤ 23) := by omega
  simp [setCursor_ST7920, h3, h4, h5]

/-- Witness for `C9_out_of_range` at `p = 100`. -/
theorem C9_out_of_range_witness :
    setCursor_ST7920 100 = [] ∧
    (setCursor_ST7920 100).flatMap sendInstruction_ST7920 = [] :=
  C9_out_of_range 100 (by decide) (by decide)

/-- `chooseInstructionSet_ST7920 'B'` in closed form: it emits the
basic-switch instruction exactly when the tracked set is `'E'`. -/
theorem chooseInstructionSet_basic (s : Char) :
    chooseInstructionSet_ST7920 'B' s =
      if s = 'E' then ('B', [0b0000110000]) else (s, []) := by
  have hBE : ('B' : Char) ≠ 'E' := by decide
  by_cases h : s = 'E' <;> simp [chooseInstructionSet_ST7920, h, hBE]

/-- C5: the second of two consecutive `chooseInstructionSet_ST7920 'B'`
calls emits nothing and leaves the tracked set unchanged; a single call
emits at most one instruction, exactly one when the tracked set was
`'E'`; and a call whose target equals the tracked set is a complete
no-op. -/
theorem C5_mode_tracker :
    (∀ s : Char,
        (chooseInstructionSet_ST7920 'B'
            (chooseInstructionSet_ST7920 'B' s).1).2 = [] ∧
        (chooseInstructionSet_ST7920 'B'
            (chooseInstructionSet_ST7920 'B' s).1).1 =
          (chooseInstructionSet_ST7920 'B' s).1 ∧
        (chooseInstructionSet_ST7920 'B' s).2.length ≤ 1) ∧
    (chooseInstructionSet_ST7920 'B' 'E').2.length = 1 ∧
    (∀ choice s : Char, choice = s →
        chooseInstructionSet_ST7920 choice s = (s, [])) := by
  refine ⟨?_, by decide, ?_⟩
  · intro s
    by_cases h : s = 'E'
    · subst h
      exact ⟨by decide, by decide, by decide⟩
    · simp [chooseInstructionSet_basic, h]
  · intro choice s h
    subst h
    by_cases h1 : choice = 'E'
    · subst h1; decide
    · by_cases h2 : choice = 'B'
      · subst h2; decide
      · simp [chooseInstructionSet_ST7920, h1, h2]

/-- Witness for `C5_mode_tracker`: a call with target `'B'` while the
tracked set is already `'B'` is a no-op. -/
theorem C5_mode_tracker_witness :
    chooseInstructionSet_ST7920 'B' 'B' = ('B', []) :=
  C5_mode_tracker.2.2 'B' 'B' rfl

/-- C6: each recognized option of `setDisplayStatus_ST7920` overwrites
exactly its own flag, the other two flags are passed through unchanged,
and the display-control instruction sent last encodes all three current
flags; concretely, from the default all-true state,
`setDisplayStatus 'D' false` then `setDisplayStatus 'C' true` ends with
the instruction `0b0000001011` (display off, underline cursor on, blink
cursor on). -/
theorem C6_display_flags :
    (∀ (st : DriverState) (status : Bool),
        (setDisplayStatus_ST7920 'D' status st).1.displayStatus = status ∧
        (setDisplayStatus_ST7920 'D' status st).1.underlineCursorStatus =
          st.underlineCursorStatus ∧
        (setDisplayStatus_ST7920 'D' status st).1.blinkCursorStatus =
          st.blinkCursorStatus ∧
        (setDisplayStatus_ST7920 'D' status st).2.getLast? =
          some (0b0000001000 ||| (if status then 0b0000000100 else 0) |||
            (if st.underlineCursorStatus then 0b0000000010 else 0) |||
            (if st.blinkCursorStatus then 0b0000000001 else 0))) ∧
    (∀ (st : DriverState) (status : Bool),
        (setDisplayStatus_ST7920 'C' status st).1.displayStatus =
          st.displayStatus ∧
        (setDisplayStatus_ST7920 'C' status st).1.underlineCursorStatus =
          status ∧
        (setDisplayStatus_ST7920 'C' status st).1.blinkCursorStatus =
          st.blinkCursorStatus ∧
        (setDisplayStatus_ST7920 'C' status st).2.getLast? =
          some (0b0000001000 ||| (if st.displayStatus then 0b0000000100 else 0) |||
            (if status then 0b0000000010 else 0) |||
            (if st.blinkCursorStatus then 0b0000000001 else 0))) ∧
    (∀ (st : DriverState) (status : Bool),
        (setDisplayStatus_ST7920 'B' status st).1.displayStatus =
          st.displayStatus ∧
        (setDisplayStatus_ST7920 'B' status st).1.underlineCursorStatus =
          st.underlineCursorStatus ∧
        (setDisplayStatus_ST7920 'B' status st).1.blinkCursorStatus =
          status ∧
        (setDisplayStatus_ST7920 'B' status st).2.getLast? =
          some (0b0000001000 ||| (if st.displayStatus then 0b0000000100 else 0) |||
            (if st.underlineCursorStatus then 0b0000000010 else 0) |||
            (if status then 0b0000000001 else 0))) ∧
    ((setDisplayStatus_ST7920 'C' true
        (setDisplayStatus_ST7920 'D' false initialState).1).2.getLast? =
      some 0b0000001011 ∧
     (setDisplayStatus_ST7920 'C' true
        (setDisplayStatus_ST7920 'D' false initialState).1).1.displayStatus =
      false ∧
     (setDisplayStatus_ST7920 'C' true
        (setDisplayStatus_ST7920 'D' false
          initialState).1).1.underlineCursorStatus = true ∧
     (setDisplayStatus_ST7920 'C' true
        (setDisplayStatus_ST7920 'D' false
          initialState).1).1.blinkCursorStatus = true) := by
  refine ⟨?_, ?_, ?_, by decide⟩ <;>
    intro st status <;>
      simp [setDisplayStatus_ST7920, List.getLast?_concat]

/-- C8: `initialize_ST7920` (modelled as `initializeDriver_ST7920`) sets
the tracked instruction set to `'B'` and emits, in order, the basic
function-set instruction (the same value `chooseInstructionSet_ST7920`
uses to switch to basic), the display-control instruction built from the
current flags, the clear-display instruction, and the entry-mode
instruction that `setEntryMode_ST7920 'C' 'R'` (cursor moves right)
emits. -/
theorem C8_initialization :
    (∀ st : DriverState,
        (initializeDriver_ST7920 st).1.instructionSet = 'B' ∧
        (initializeDriver_ST7920 st).2 =
          [0b0000110000,
           0b0000001000 ||| (if st.displayStatus then 0b0000000100 else 0) |||
             (if st.underlineCursorStatus then 0b0000000010 else 0) |||
             (if st.blinkCursorStatus then 0b0000000001 else 0),
           0b0000000001,
           0b0000000110]) ∧
    (chooseInstructionSet_ST7920 'B' 'E').2 = [0b0000110000] ∧
    (∀ st : DriverState, st.instructionSet = 'B' →
        (setEntryMode_ST7920 'C' 'R' st).2 = [0b0000000110]) := by
  refine ⟨?_, by decide, ?_⟩
  · intro st
    simp [initializeDriver_ST7920]
  · intro st h
    simp [setEntryMode_ST7920, chooseInstructionSet_basic, h]

/-- Witness for `C8_initialization` at the startup state. -/
theorem C8_initialization_witness :
    (initializeDriver_ST7920 initialState).1.instructionSet = 'B' ∧
    (setEntryMode_ST7920 'C' 'R' initialState).2 = [0b0000000110] :=
  ⟨(C8_initialization.1 initialState).1,
   C8_initialization.2.2 initialState rfl⟩

/-- C10: an unrecognized option character falls through the `switch` of
`setDisplayStatus_ST7920`, so all three flags are unchanged, yet the
function still forces the basic instruction set and still sends the
display-control instruction encoding the current (unchanged) flags. -/
theorem C10_unknown_option (option : Char) (status : Bool)
    (st : DriverState) (hD : option ≠ 'D') (hC : option ≠ 'C')
    (hB : option ≠ 'B')
    (hm : st.instructionSet = 'B' ∨ st.instructionSet = 'E') :
    (setDisplayStatus_ST7920 option status st).1.displayStatus =
      st.displayStatus ∧
    (setDisplayStatus_ST7920 option status st).1.underlineCursorStatus =
      st.underlineCursorStatus ∧
    (setDisplayStatus_ST7920 option status st).1.blinkCursorStatus =
      st.blinkCursorStatus ∧
    (setDisplayStatus_ST7920 option status st).1.instructionSet = 'B' ∧
    (setDisplayStatus_ST7920 option status st).2.getLast? =
      some (0b0000001000 ||| (if st.displayStatus then 0b0000000100 else 0) |||
        (if st.underlineCursorStatus then 0b0000000010 else 0) |||
        (if st.blinkCursorStatus then 0b0000000001 else 0)) := by
  rcases hm with hm | hm <;>
    simp [setDisplayStatus_ST7920, chooseInstructionSet_basic, hD, hC, hB,
      hm, List.getLast?_concat]

/-- Witness for `C10_unknown_option` at option `'X'` and the startup
state. -/
theorem C10_unknown_option_witness :
    (setDisplayStatus_ST7920 'X' false initialState).1.displayStatus =
      initialState.displayStatus ∧
    (setDisplayStatus_ST7920 'X' false
        initialState).1.underlineCursorStatus =
      initialState.underlineCursorStatus ∧
    (setDisplayStatus_ST7920 'X' false initialState).1.blinkCursorStatus =
      initialState.blinkCursorStatus ∧
    (setDisplayStatus_ST7920 'X' false initialState).1.instructionSet =
      'B' ∧
    (setDisplayStatus_ST7920 'X' false initialState).2.getLast? =
      some (0b0000001000 |||
        (if initialState.displayStatus then 0b0000000100 else 0) |||
        (if initialState.underlineCursorStatus then 0b0000000010 else 0) |||
        (if initialState.blinkCursorStatus then 0b0000000001 else 0)) :=
  C10_unknown_option 'X' false initialState (by decide) (by decide)
    (by decide) (Or.inl rfl)

/-- The `setCursor_ST7920` calls made inside the write loop of
`printHalfCharacters_ST7920` are exactly the hits of the running
position on a row boundary. -/
theorem countP_printHalfLoop (chars : List Nat) :
    ∀ pos : Nat,
      (printHalfLoop pos chars).countP isCursorEv =
        boundaryHits pos chars.length := by
  induction chars with
  | nil => intro pos; rfl
  | cons c cs ih =>
    intro pos
    by_cases h : pos = 16 ∨ pos = 32 ∨ pos = 48
    · simp [printHalfLoop, boundaryHits, h, List.countP_cons,
        List.countP_append, isCursorEv, ih]
      omega
    · simp [printHalfLoop, boundaryHits, h, List.countP_cons,
        List.countP_append, isCursorEv, ih]

/-- C7: if the running position of the write loop of
`printHalfCharacters_ST7920` hits a row boundary (16, 32 or 48) exactly
once, the loop makes exactly one `setCursor_ST7920` call; concretely,
for row 0, column 14 and four characters the whole call is the initial
cursor placement, two writes, one re-`setCursor` issued at position 16
before the remaining writes, and the last two writes. -/
theorem C7_row_boundary :
    (∀ (chars : List Nat) (row column : Nat),
        boundaryHits ((row * 16 + column) % 256) chars.length = 1 →
        (printHalfLoop ((row * 16 + column) % 256) chars).countP
          isCursorEv = 1) ∧
    (∀ c0 c1 c2 c3 : Nat,
        printHalfCharacters_ST7920 [c0, c1, c2, c3] 0 14 =
          [Ev.cursor 7, Ev.instr (0b1000000000 ||| c0),
           Ev.instr (0b1000000000 ||| c1), Ev.cursor 8,
           Ev.instr (0b1000000000 ||| c2),
           Ev.instr (0b1000000000 ||| c3)]) := by
  constructor
  · intro chars row column h
    rw [countP_printHalfLoop]
    exact h
  · intro c0 c1 c2 c3
    simp [printHalfCharacters_ST7920, printHalfLoop]

/-- Witness for `C7_row_boundary` at row 0, column 14 and the four
character codes of "HIJK". -/
theorem C7_row_boundary_witness :
    boundaryHits ((0 * 16 + 14) % 256)
        ([72, 73, 74, 75] : List Nat).length = 1 ∧
    (printHalfLoop ((0 * 16 + 14) % 256) [72, 73, 74, 75]).countP
      isCursorEv = 1 :=
  ⟨by decide, C7_row_boundary.1 [72, 73, 74, 75] 0 14 (by decide)⟩

end ST7920
